import Mathlib

set_option maxRecDepth 100000

/-!
Verification development for the mi-dataset oceanographic parsers
(ronkyo/mi-dataset).  The Python parser modules under
mi/dataset/parser are shallowly embedded as executable Lean
definitions; the theorems at the end of the file settle the frozen
claims about the parsers.

Embedding conventions:
* Python strings are `String` / `List Char`; binary buffers are
  `List Nat` (one `Nat` per byte, each < 256).
* Python regular-expression matching is embedded by a small
  backtracking engine (`reMatches`) which enumerates the complete
  matches of a pattern against a prefix of the input in exactly the
  priority order of the CPython `re` engine for the constructs used
  by this repository (concatenation, left-biased alternation, greedy
  star/plus/option, character classes, capture groups).  The head of
  that enumeration is the match `re.match` returns.
* Exceptions routed through `self._exception_callback(...)` are
  collected in result lists; exceptions that propagate
  (e.g. `ValueError` from `int(...)`) are `Except.error`.
-/

namespace MiDataset

/-- A Python exception object routed through an exception callback or
raised.  Only the constructor and message matter to the claims. -/
inductive PyExc where
  | unexpectedData (msg : String)
  | recoverableSample (msg : String)
  | sampleException (msg : String)
  | valueError (msg : String)
  | indexError (msg : String)
  deriving Repr, DecidableEq

/-! ## A small regular-expression engine

The Python modules drive all framing decisions through `re` patterns.
The patterns used only involve: single-character classes, literals,
concatenation, alternation (left first), greedy `*` / `+` / `?` and
numbered capture groups.  For those constructs CPython's backtracking
search enumerates candidate matches in a fixed priority order
(alternation: left alternative first; greedy quantifiers: longer
repetition first) and `re.match` returns the first complete match of
the pattern against a prefix of the subject.  `reMatches` enumerates
exactly that list (rest-of-input plus captured groups), so
`(reMatches fuel r s).head?` is the embedded `re.match`.

The `fuel` argument only bounds recursion depth; `reFuel` below is a
safe over-approximation of the maximal backtracking depth, so the
engine is total without a termination measure on the regex. -/

inductive RE where
  | eps
  | cls (p : Char → Bool)
  | cat (a b : RE)
  | alt (a b : RE)
  | star (a : RE)
  | grp (i : Nat) (a : RE)

namespace RE

/-- Literal character. -/
def lit (c : Char) : RE := cls (fun d => d == c)

/-- `r?` (greedy): try `r` first, then the empty match. -/
def opt (r : RE) : RE := alt r eps

/-- `r+` (greedy). -/
def plus (r : RE) : RE := cat r (star r)

/-- `r{n}`: exactly `n` copies of `r`. -/
def repn : Nat → RE → RE
  | 0, _ => eps
  | n + 1, r => cat r (repn n r)

/-- Concatenation of a list of pieces. -/
def seq (l : List RE) : RE := l.foldr cat eps

/-- Literal string. -/
def str (s : String) : RE := seq (s.data.map lit)

/-- Structural size, used to compute a sufficient fuel. -/
def size : RE → Nat
  | eps => 1
  | cls _ => 1
  | cat a b => size a + size b + 1
  | alt a b => size a + size b + 1
  | star a => size a + 1
  | grp _ a => size a + 1

end RE

/-- Captured groups: `(index, captured characters)` in completion
order; a later entry for the same index supersedes an earlier one
(Python keeps the last repetition's capture). -/
abbrev Caps := List (Nat × List Char)

/-- All complete matches of `r` against a prefix of `s`, in CPython
backtracking priority order.  Each element is the remaining suffix
paired with the captures.  A `star` iteration must consume input
(CPython likewise refuses empty quantifier iterations), which bounds
the recursion. -/
def reMatches : Nat → RE → List Char → List (List Char × Caps)
  | 0, _, _ => []
  | _ + 1, RE.eps, s => [(s, [])]
  | _ + 1, RE.cls p, s =>
    match s with
    | [] => []
    | c :: cs => if p c then [(cs, [])] else []
  | fuel + 1, RE.cat a b, s =>
    (reMatches fuel a s).flatMap fun m1 =>
      (reMatches fuel b m1.1).map fun m2 => (m2.1, m1.2 ++ m2.2)
  | fuel + 1, RE.alt a b, s => reMatches fuel a s ++ reMatches fuel b s
  | fuel + 1, RE.star a, s =>
    (((reMatches fuel a s).filter fun m => m.1.length < s.length).flatMap fun m1 =>
      (reMatches fuel (RE.star a) m1.1).map fun m2 => (m2.1, m1.2 ++ m2.2))
    ++ [(s, [])]
  | fuel + 1, RE.grp i a, s =>
    (reMatches fuel a s).map fun m =>
      (m.1, m.2 ++ [(i, s.take (s.length - m.1.length))])

/-- Sufficient recursion depth for `reMatches` on subject `s`. -/
def reFuel (r : RE) (s : List Char) : Nat := (RE.size r + 2) * (s.length + 2)

/-- Embedded `re.match(r, s)`: the first complete prefix match in
priority order, as (remaining suffix, captures). -/
def reMatch (r : RE) (s : List Char) : Option (List Char × Caps) :=
  (reMatches (reFuel r s) r s).head?

/-- `m.group(i)` of an embedded match: the last capture recorded for
group `i` (`none` when the group did not participate). -/
def capGroup (caps : Caps) (i : Nat) : Option (List Char) :=
  (caps.reverse.lookup i)

/-- `groups()` of an embedded match with groups numbered `1..n`:
group `i` as a string, empty when unset (the patterns in this
repository only read groups that participated in the match). -/
def capGroups (caps : Caps) (n : Nat) : List String :=
  (List.range n).map fun i =>
    ((capGroup caps (i + 1)).getD []).asString

/-! ## Common regex pieces

The building blocks below embed the pattern fragments shared by the
parser modules.  `common_regexes.py` and `dcl_file_common.py` are not
part of the source tree handed to this development (only their
importers are), so the fragments they export are modelled from the
spec where noted. -/

/-- `\d`. -/
def isDigitB (c : Char) : Bool := c.isDigit

/-- `\s` (Python whitespace class). -/
def isSpaceB (c : Char) : Bool :=
  c == ' ' || c == '\t' || c == '\n' || c == '\r' || c == '\x0b' || c == '\x0c'

/-- `[+-]`, the sign of a number. -/
def isSignB (c : Char) : Bool := c == '+' || c == '-'

/-- `[0-9a-fA-F]`, the `HEX` class of adcpt_acfgm_dcl_pd8.py. -/
def isHexB (c : Char) : Bool :=
  c.isDigit || ('a' ≤ c && c ≤ 'f') || ('A' ≤ c && c ≤ 'F')

/-- `.` without `re.DOTALL`: any character except a line feed. -/
def isAnyNoNL (c : Char) : Bool := !(c == '\n')

/-- `.` with `re.DOTALL`: any character. -/
def isAnyDotall (_ : Char) : Bool := true

/-- `\d{n}`. -/
def dign (n : Nat) : RE := RE.repn n (RE.cls isDigitB)

/-- `\d+`. -/
def digits1 : RE := RE.plus (RE.cls isDigitB)

/-- Modelled from the spec: `SPACE_REGEX` of common_regexes.py, a
single literal space, so `MULTI_SPACE = SPACE_REGEX + '+'` is one or
more spaces. -/
def multiSpace : RE := RE.plus (RE.lit ' ')

/-- `\s+` (`ONE_OR_MORE_WHITESPACE_REGEX`). -/
def wsPlus : RE := RE.plus (RE.cls isSpaceB)

/-- `\s*` (`ZERO_OR_MORE_WHITESPACE_REGEX`). -/
def wsStar : RE := RE.star (RE.cls isSpaceB)

/-- Modelled from the spec: `END_OF_LINE_REGEX` of common_regexes.py,
`(?:\r\n|\n)`. -/
def eolRE : RE := RE.alt (RE.cat (RE.lit '\r') (RE.lit '\n')) (RE.lit '\n')

/-- Modelled from the spec: `UNSIGNED_INT_REGEX` of common_regexes.py,
one or more decimal digits; `UINT` wraps it in a capture group. -/
def uintG (i : Nat) : RE := RE.grp i digits1

/-- Modelled from the spec: `INT_REGEX` of common_regexes.py, an
optionally signed decimal integer; `SINT` wraps it in a group. -/
def sintG (i : Nat) : RE := RE.grp i (RE.cat (RE.opt (RE.cls isSignB)) digits1)

/-- Modelled from the spec: `FLOAT_REGEX` of common_regexes.py, an
optionally signed decimal number with an optional fractional part
(also matching a bare integer or `.5`). -/
def floatCore : RE :=
  RE.cat (RE.opt (RE.cls isSignB))
    (RE.alt (RE.cat digits1 (RE.opt (RE.cat (RE.lit '.') (RE.star (RE.cls isDigitB)))))
      (RE.cat (RE.lit '.') digits1))

/-- `FLOAT`: `FLOAT_REGEX` in a capture group. -/
def floatG (i : Nat) : RE := RE.grp i floatCore

end MiDataset

namespace MiDataset.Pd8

/-!
## adcpt_acfgm_dcl_pd8.py — the PD8 ASCII multi-line parser

`AdcpPd8Parser.parse_chunks` classifies each chunk against
`MATCHER_LIST` (first match wins) and accumulates the captured group
tuples of each line kind into five local lists; the terminator line
(`IGNORE_EMPTY_MATCHER`) clears all five.  The particle-building code
in the `IGNORE_EMPTY` branch of the source is commented out, so no
branch ever appends to `result_particles`.
-/

open MiDataset

/-- Modelled from the spec: `TIMESTAMP` of dcl_file_common.py, the
DCL controller timestamp `YYYY/MM/DD HH:MM:SS.mmm` captured as a
whole (group 1) and in parts (groups 2-8: year, month, day, hour,
minute, second, millisecond), matching the PD8 group-index constants
`SENSOR_DATA_TIMESTAMP = 0 .. SENSOR_DATA_MILLISECOND = 7`. -/
def TIMESTAMP : RE :=
  RE.grp 1 (RE.seq [RE.grp 2 (dign 4), RE.lit '/', RE.grp 3 (dign 2), RE.lit '/',
    RE.grp 4 (dign 2), RE.lit ' ', RE.grp 5 (dign 2), RE.lit ':', RE.grp 6 (dign 2),
    RE.lit ':', RE.grp 7 (dign 2), RE.lit '.', RE.grp 8 (dign 3)])

/-- `SENSOR_DATE`: `(\d{4}/\d{2}/\d{2})`. -/
def SENSOR_DATE (i : Nat) : RE :=
  RE.grp i (RE.seq [dign 4, RE.lit '/', dign 2, RE.lit '/', dign 2])

/-- `SENSOR_TIME`: `(\d{2}:\d{2}:\d{2}.\d{2})` — the unescaped dot
matches any character except a newline. -/
def SENSOR_TIME (i : Nat) : RE :=
  RE.grp i (RE.seq [dign 2, RE.lit ':', dign 2, RE.lit ':', dign 2,
    RE.cls isAnyNoNL, dign 2])

/-- `SENSOR_TIME_PATTERN` (line 2): timestamp, sensor date/time group
and ensemble number.  Groups 9 (combined), 10 (date), 11 (time),
12 (ensemble). -/
def SENSOR_TIME_RE : RE :=
  RE.seq [TIMESTAMP, multiSpace,
    RE.grp 9 (RE.seq [SENSOR_DATE 10, multiSpace, SENSOR_TIME 11]), multiSpace,
    uintG 12, eolRE]

/-- `SENSOR_HEAD_PATTERN` (line 3): `Hdg:`, `Pitch:`, `Roll:` floats,
groups 9-11. -/
def SENSOR_HEAD_RE : RE :=
  RE.seq [TIMESTAMP, multiSpace, RE.str "Hdg:", multiSpace, floatG 9, multiSpace,
    RE.str "Pitch:", multiSpace, floatG 10, multiSpace,
    RE.str "Roll:", multiSpace, floatG 11, eolRE]

/-- `SENSOR_TEMP_PATTERN` (line 4): `Temp:`, `SoS:`, `BIT:` with two
single hex-digit groups, groups 9-12. -/
def SENSOR_TEMP_RE : RE :=
  RE.seq [TIMESTAMP, multiSpace, RE.str "Temp:", multiSpace, floatG 9, multiSpace,
    RE.str "SoS:", multiSpace, sintG 10, multiSpace,
    RE.str "BIT:", multiSpace, RE.grp 11 (RE.cls isHexB), RE.grp 12 (RE.cls isHexB), eolRE]

/-- `IGNORE_HEAD_PATTERN` (line 5): timestamp, `Bin`, anything, end of
line. -/
def IGNORE_HEAD_RE : RE :=
  RE.seq [TIMESTAMP, multiSpace, RE.str "Bin", RE.star (RE.cls isAnyNoNL), eolRE]

/-- `IGNORE_EMPTY_PATTERN`: timestamp followed only by spaces and the
end of line — the record terminator. -/
def IGNORE_EMPTY_RE : RE := RE.seq [TIMESTAMP, multiSpace, eolRE]

/-- `SENSOR_DATA_PATTERN`: timestamp and the eleven numeric columns of
one data row (bin, dir, mag, E/W, N/S, vert, err, echo1-echo4),
groups 9-19. -/
def SENSOR_DATA_RE : RE :=
  RE.seq [TIMESTAMP, multiSpace, uintG 9, multiSpace, floatG 10, multiSpace,
    floatG 11, multiSpace, sintG 12, multiSpace, sintG 13, multiSpace,
    sintG 14, multiSpace, sintG 15, multiSpace, uintG 16, multiSpace,
    uintG 17, multiSpace, uintG 18, multiSpace, uintG 19, eolRE]

/-- `METADATA_PATTERN` (line 1): timestamp, `[text]`, optional colon,
end of line. -/
def METADATA_RE : RE :=
  RE.seq [TIMESTAMP, RE.lit ' ', RE.lit '[', RE.star (RE.cls isAnyNoNL), RE.lit ']',
    RE.opt (RE.lit ':'), eolRE]

/-- The six line kinds of `MATCHER_LIST`, in list order. -/
inductive Kind where
  | sensorData
  | sensorTemp
  | sensorHead
  | sensorTime
  | ignoreHead
  | ignoreEmpty
  deriving Repr, DecidableEq

/-- Number of capture groups of each matcher (length of `groups()`). -/
def Kind.nGroups : Kind → Nat
  | .sensorData => 19
  | .sensorTemp => 12
  | .sensorHead => 11
  | .sensorTime => 12
  | .ignoreHead => 8
  | .ignoreEmpty => 8

/-- The regex of each matcher. -/
def Kind.re : Kind → RE
  | .sensorData => SENSOR_DATA_RE
  | .sensorTemp => SENSOR_TEMP_RE
  | .sensorHead => SENSOR_HEAD_RE
  | .sensorTime => SENSOR_TIME_RE
  | .ignoreHead => IGNORE_HEAD_RE
  | .ignoreEmpty => IGNORE_EMPTY_RE

/-- `MATCHER_LIST` order. -/
def matcherList : List Kind :=
  [.sensorData, .sensorTemp, .sensorHead, .sensorTime, .ignoreHead, .ignoreEmpty]

/-- The `for matcher in MATCHER_LIST: line_match = matcher.match(chunk)`
loop with its `break`: the first matcher in list order that matches,
with the captured `groups()`. -/
def firstMatch (chunk : String) : Option (Kind × List String) :=
  (matcherList.filterMap fun k =>
    (reMatch k.re chunk.data).map fun m => (k, capGroups m.2 k.nGroups)).head?

/-- `self.metadata_matcher.match(chunk) is not None`. -/
def metaMatches (chunk : String) : Bool :=
  (reMatch METADATA_RE chunk.data).isSome

/-- The five per-record accumulator lists local to `parse_chunks`. -/
structure Accs where
  sensorDataList : List (List String)
  sensorTempList : List (List String)
  sensorHeadList : List (List String)
  sensorTimeList : List (List String)
  endTimeList : List (List String)
  deriving Repr, DecidableEq

/-- All five accumulator lists empty — the initial state of a
`parse_chunks` call. -/
def Accs.empty : Accs := ⟨[], [], [], [], []⟩

/-- A would-be PD8 particle (raw data of one decoded record).  No
branch of `parse_chunks` constructs one: the builder is commented out
in the source. -/
abbrev Particle := List String

/-- The body of the `while chunk` loop of `AdcpPd8Parser.parse_chunks`
for one chunk: classify the chunk, append its groups to the matching
accumulator, clear all five accumulators after a terminator, and
report unknown non-metadata chunks.  Returns the new accumulator
state, the particles appended to `result_particles` (none — the
builder is commented out in the source) and the exceptions handed to
the exception callback. -/
def processChunk (st : Accs) (chunk : String) : Accs × List Particle × List PyExc :=
  match firstMatch chunk with
  | some (Kind.sensorData, g) =>
    ({ st with sensorDataList := st.sensorDataList ++ [g] }, [], [])
  | some (Kind.sensorTemp, g) =>
    ({ st with sensorTempList := st.sensorTempList ++ [g] }, [], [])
  | some (Kind.sensorHead, g) =>
    ({ st with sensorHeadList := st.sensorHeadList ++ [g] }, [], [])
  | some (Kind.sensorTime, g) =>
    ({ st with sensorTimeList := st.sensorTimeList ++ [g] }, [], [])
  | some (Kind.ignoreEmpty, _) =>
    -- the branch appends to end_time_list, then `del`-clears all five
    -- accumulator lists; the particle construction between the two is
    -- commented out in the source.
    (Accs.empty, [], [])
  | some (Kind.ignoreHead, _) => (st, [], [])      -- `pass  # ignore`
  | none =>
    if metaMatches chunk then (st, [], [])
    else (st, [], [PyExc.unexpectedData ("Unknown data found in chunk [not meta] " ++ chunk)])

/-- One iteration of the `while chunk` loop: thread the accumulator
state and collect particles and exceptions. -/
def loopStep (acc : Accs × List Particle × List PyExc) (chunk : String) :
    Accs × List Particle × List PyExc :=
  ((processChunk acc.1 chunk).1,
   acc.2.1 ++ (processChunk acc.1 chunk).2.1,
   acc.2.2 ++ (processChunk acc.1 chunk).2.2)

/-- `AdcpPd8Parser.parse_chunks` over the chunks the chunker yields in
one call: fold the loop body from empty accumulators, collecting
particles and exceptions. -/
def parseChunks (chunks : List String) : List Particle × List PyExc :=
  (chunks.foldl loopStep (Accs.empty, [], [])).2

/-- Modelled from the spec: the Parser Driver Loop `get_records(n)` of
the missing dataset_parser.py base class pulls up to `n` decoded
records from the record buffer, which `_load_particle_buffer`
(overridden in the PD8 source) fills with the results of
`parse_chunks`. -/
def getRecords (n : Nat) (chunks : List String) : List Particle :=
  ((parseChunks chunks).1).take n

/-- Python `int(s)` (base 10): optional sign followed by decimal
digits, surrounding whitespace stripped; any other string raises
`ValueError`. -/
def pyInt (s : String) : Except PyExc Int :=
  let t := ((s.data.dropWhile isSpaceB).reverse.dropWhile isSpaceB).reverse
  let digitsVal : List Char → Int := fun l =>
    Int.ofNat (l.foldl (fun a c => a * 10 + (c.toNat - 48)) 0)
  match t with
  | [] => .error (PyExc.valueError ("invalid literal for int() with base 10: " ++ s))
  | c :: rest =>
    if isSignB c then
      if rest ≠ [] ∧ rest.all isDigitB then
        .ok ((if c == '-' then -1 else 1) * digitsVal rest)
      else .error (PyExc.valueError ("invalid literal for int() with base 10: " ++ s))
    else if (c :: rest).all isDigitB then .ok (digitsVal (c :: rest))
    else .error (PyExc.valueError ("invalid literal for int() with base 10: " ++ s))

/-- `'{0:04b}'.format(value)`: the binary digits of `value`, most
significant bit first, left-padded with zeros to at least four
characters. -/
def format04b (v : Int) : List Char :=
  let b := Nat.toDigits 2 v.toNat
  List.replicate (4 - b.length) '0' ++ b

/-- `binary.find('1', index, index + 1) > -1`: whether the character
of `binary` at position `index` (counted from the left) is `'1'`. -/
def findOneAt (binary : List Char) (index : Nat) : Bool :=
  match binary.drop index with
  | c :: _ => c == '1'
  | [] => false

/-- `AdcpPd8Parser.check_bit(hex_value, index)`.  `int(hex_value)` is
evaluated first in `10 > int(hex_value) >= 0`, so a `ValueError`
propagates for every non-numeric string ('A'-'F' and 'a'-'f'
included) before the `elif` chain is reached; the `elif` conditions
compare `hex_value` to the uppercase letters and the *builtin
function* `hex` to the lowercase letters (the latter is always
false).  Returns the value together with the exceptions handed to
the exception callback. -/
def checkBit (hexValue : String) (index : Nat) : Except PyExc (Int × List PyExc) :=
  match pyInt hexValue with
  | .error e => .error e
  | .ok n =>
    let x : Int × List PyExc :=
      if 10 > n ∧ n ≥ 0 then (n, [])
      else if hexValue = "A" then (10, [])
      else if hexValue = "B" then (11, [])
      else if hexValue = "C" then (12, [])
      else if hexValue = "D" then (13, [])
      else if hexValue = "E" then (14, [])
      else if hexValue = "F" then (15, [])
      else (0, [PyExc.unexpectedData ("Unknown data found BIT in chunk " ++ hexValue)])
    let binary := format04b x.1
    let excs :=
      if index > 3 then x.2 ++ [PyExc.unexpectedData "Out of bound bit found BIT"]
      else x.2
    .ok ((if findOneAt binary index then 1 else 0), excs)

end MiDataset.Pd8

namespace MiDataset.Wvs

/-!
## adcpt_m_wvs.py — the binary WVS parser

A WVS record starts with the two sync bytes `\x7f\x7a` followed by
two spare bytes, a four-byte little-endian record size, three spare
bytes and a one-byte data-type count (`HEADER_MATCHER`, compiled with
`re.DOTALL`, so the wildcard bytes match anything).  Buffers are
embedded as `List Nat`, one entry per byte.
-/

open MiDataset

/-- Byte of a buffer at an index (`0` out of range, only read in
range). -/
def byteAt (b : List Nat) (i : Nat) : Nat := b.getD i 0

/-- `struct.unpack('I', b[i:i+4])[0]`: the four bytes at `i` as a
little-endian 32-bit unsigned integer. -/
def le32At (b : List Nat) (i : Nat) : Nat :=
  byteAt b i + 256 * byteAt b (i + 1) + 65536 * byteAt b (i + 2) +
    16777216 * byteAt b (i + 3)

/-- `HEADER_MATCHER.search(input_buffer)`: the first index at which
the twelve-byte header pattern matches — the sync word `0x7f 0x7a`
with at least ten more bytes in the buffer (the `.` wildcards of the
DOTALL pattern match any byte). -/
def syncIndex (b : List Nat) : Option Nat :=
  (List.range b.length).find? fun i =>
    decide (i + 12 ≤ b.length) && (byteAt b i == 0x7f) && (byteAt b (i + 1) == 0x7a)

/-- `AdcptMWVSParser.sieve_function`: frame the first record whose
header is in the buffer.  The record spans `record_size` bytes from
the sync word (the size is the little-endian word at offset 4 of the
match); the span is returned only when the buffer already holds
`record_end` bytes, otherwise the sieve returns no span and thereby
requests more input. -/
def sieveFunction (b : List Nat) : List (Nat × Nat) :=
  match syncIndex b with
  | none => []
  | some recordStart =>
    let recordEnd := recordStart + le32At b (recordStart + 4)
    if b.length ≥ recordEnd then [(recordStart, recordEnd)] else []

/-- Python 2 `x <= y` where either side may be `None`: `None` is
smaller than every integer. -/
def pyLeOpt : Option Int → Option Int → Bool
  | none, _ => true
  | some _, none => false
  | some a, some b => a ≤ b

/-- `AdcptMWVSParser.handle_non_data`: report the non-data span as an
`UnexpectedDataException` only when `non_data is not None and
non_end <= start`; with no following data chunk `start` is `None`
and the comparison is false, so nothing is reported. -/
def handleNonData (nonData : Option (List Nat)) (nonEnd start : Option Int) : List PyExc :=
  match nonData with
  | none => []
  | some nd =>
    if pyLeOpt nonEnd start then
      [PyExc.unexpectedData ("Found " ++ toString nd.length ++ " bytes of un-expected non-data")]
    else []

/-- `FILE_NAME_MATCHER` of adcpt_m_wvs.py
(`.+CE01ISSM-ADCPT_<uint>_(<uint>)_TS(<uint>).*\.WVS`, DOTALL):
group 1 is the sequence number, group 2 the file time. -/
def FILE_NAME_RE : RE :=
  RE.seq [RE.plus (RE.cls isAnyDotall), RE.str "CE01ISSM-ADCPT_", digits1, RE.lit '_',
    RE.grp 1 digits1, RE.lit '_', RE.str "TS", RE.grp 2 digits1,
    RE.star (RE.cls isAnyDotall), RE.str ".WVS"]

/-- `FILE_NAME_MATCHER.match(input_file_name)`: `(sequence_number,
file_time)` — `match.group(1)` and `match.group(2)`. -/
def fileNameMatch (name : String) : Option (String × String) :=
  (reMatch FILE_NAME_RE name.data).map fun m =>
    (((capGroup m.2 1).getD []).asString, ((capGroup m.2 2).getD []).asString)

/-- The class-level attributes of `AdcptMWVSInstrumentDataParticle`
(`_file_time`, `_sequence_number`) and `AdcptMWVSParser`
(`particle_count`) that are shared mutable state across parser
instances. -/
structure Shared where
  fileTime : Option String
  seqNum : Option String
  particleCount : Nat
  deriving Repr, DecidableEq

/-- One iteration of the `while chunk` loop of
`AdcptMWVSParser.parse_chunks`: bump the class-level
`particle_count` and extract one particle from the chunk via the
builder, which reads the current shared class attributes. -/
def loopStep {P : Type} (build : Option String → Option String → List Nat → P)
    (acc : List P × Shared) (chunk : List Nat) : List P × Shared :=
  let st2 := { acc.2 with particleCount := acc.2.particleCount + 1 }
  (acc.1 ++ [build st2.fileTime st2.seqNum chunk], st2)

/-- `AdcptMWVSParser.parse_chunks`, parameterized by the particle
builder.  The source's `_build_parsed_values` reads only the chunk
stored in `raw_data` and the two class attributes `_file_time` and
`_sequence_number`, so it is embedded as an arbitrary function
`build` of exactly those three inputs.  `parse_chunks` first
overwrites the class attributes from the file name whenever
`FILE_NAME_MATCHER` matches, then extracts one particle per data
chunk. -/
def parseChunks {P : Type} (build : Option String → Option String → List Nat → P)
    (name : String) (chunks : List (List Nat)) (st : Shared) : List P × Shared :=
  let st1 :=
    match fileNameMatch name with
    | some sf => { st with seqNum := some sf.1, fileTime := some sf.2 }
    | none => st
  chunks.foldl (loopStep build) ([], st1)

end MiDataset.Wvs

namespace MiDataset.Fcoeff

/-!
## adcpt_m_fcoeff.py — the FCoeff ASCII parser

`AdcptMDspecParser.parse_file` reads the file line by line, extracts
`num_fields`/`num_freq` and the two frequency-band strings from the
header lines, accumulates the rows of the FCoeff matrix, reports
recoverable exceptions for malformed input, and unconditionally
extracts one particle from the six-element `parsed_data` list at end
of file.
-/

open MiDataset

/-- A Python value stored in `parsed_data` / `raw_data`. -/
inductive PyVal where
  | pystr (s : String)
  | pyint (z : Int)
  | pyfloat (s : String)
  | pymatrix (m : List (List String))
  deriving Repr, DecidableEq

/-- `int(s)` on a string that matched `\d+` (always succeeds). -/
def digitsToInt (s : String) : Int :=
  Int.ofNat (s.data.foldl (fun a c => a * 10 + (c.toNat - 48)) 0)

/-- Helper for `data.split()`: accumulate the whitespace-separated
words of a character list (`cur` is the current word, reversed). -/
def splitWsAux : List Char → List Char → List (List Char)
  | [], cur => if cur = [] then [] else [cur.reverse]
  | c :: cs, cur =>
    if isSpaceB c then
      if cur = [] then splitWsAux cs [] else cur.reverse :: splitWsAux cs []
    else splitWsAux cs (c :: cur)

/-- Python `data.split()`: split on whitespace runs, dropping empty
pieces. -/
def pySplitWs (s : String) : List String :=
  (splitWsAux s.data []).map List.asString

/-- `EMPTY_LINE_MATCHER`: `END_OF_LINE_REGEX` alone — the line starts
with a newline. -/
def emptyLineMatches (line : String) : Bool :=
  (reMatch eolRE line.data).isSome

/-- `HEADER_MATCHER`: `\s*%` followed by anything and a newline
(DOTALL). -/
def HEADER_RE : RE :=
  RE.seq [wsStar, RE.lit '%', RE.star (RE.cls isAnyDotall), eolRE]

/-- `HEADER_MATCHER.match(line) is not None`. -/
def headerMatches (line : String) : Bool :=
  (reMatch HEADER_RE line.data).isSome

/-- `DIR_FREQ_MATCHER`: `\s*%\s+(\d+)\s+Fields and\s+(\d+)\s+Frequencies`
followed by the end of line. -/
def DIR_FREQ_RE : RE :=
  RE.seq [wsStar, RE.lit '%', wsPlus, RE.grp 1 digits1, wsPlus, RE.str "Fields and",
    wsPlus, RE.grp 2 digits1, wsPlus, RE.str "Frequencies", eolRE]

/-- `DIR_FREQ_MATCHER.match(line)`: the two captured digit strings. -/
def dirFreqMatch (line : String) : Option (String × String) :=
  (reMatch DIR_FREQ_RE line.data).map fun m =>
    (((capGroup m.2 1).getD []).asString, ((capGroup m.2 2).getD []).asString)

/-- `FREQ_BAND_MATCHER`: `\s*%\s+Frequency Bands are\s+<float>\s+Hz
wide\(first frequency band is centered at\s+<float>\)` and the end of
line. -/
def FREQ_BAND_RE : RE :=
  RE.seq [wsStar, RE.lit '%', wsPlus, RE.str "Frequency Bands are", wsPlus,
    RE.grp 1 floatCore, wsPlus, RE.str "Hz wide(first frequency band is centered at",
    wsPlus, RE.grp 2 floatCore, RE.lit ')', eolRE]

/-- `FREQ_BAND_MATCHER.match(line)`: the two captured float strings. -/
def freqBandMatch (line : String) : Option (String × String) :=
  (reMatch FREQ_BAND_RE line.data).map fun m =>
    (((capGroup m.2 1).getD []).asString, ((capGroup m.2 2).getD []).asString)

/-- `FCOEFF_DATA_MATCHER`: `(( <float>)+)` and the end of line; each
float of a data row is preceded by one space (`SPACE_REGEX`). -/
def FCOEFF_DATA_RE : RE :=
  RE.seq [RE.grp 1 (RE.plus (RE.grp 2 (RE.cat (RE.lit ' ') floatCore))), eolRE]

/-- `FCOEFF_DATA_MATCHER.match(line)` and `match.group(1)`: the block
of space-separated floats. -/
def fcoeffDataMatch (line : String) : Option String :=
  (reMatch FCOEFF_DATA_RE line.data).map fun m =>
    ((capGroup m.2 1).getD []).asString

/-- `FILE_NAME_MATCHER`: `.+FCoeff([0-9]+)\.txt` (DOTALL), capturing
the file time. -/
def FILE_NAME_RE : RE :=
  RE.seq [RE.plus (RE.cls isAnyDotall), RE.str "FCoeff", RE.grp 1 digits1, RE.str ".txt"]

/-- `FILE_NAME_MATCHER.match(name)` and `match.group(1)`. -/
def fileNameMatch (name : String) : Option String :=
  (reMatch FILE_NAME_RE name.data).map fun m => ((capGroup m.2 1).getD []).asString

/-- The local state of one `parse_file` call. -/
structure St where
  fileTime : String
  numFields : Int
  numFreq : Int
  freqWBand : PyVal
  freq0 : PyVal
  matrix : List (List String)
  excs : List PyExc
  deriving Repr, DecidableEq

/-- `'Unexpected Number of frequencies in FCoeff Matrix: ...'`. -/
def mismatchMsg (numFreq : Int) (matrixLen : Nat) : String :=
  "Unexpected Number of frequencies in FCoeff Matrix: expected " ++ toString numFreq ++
    ", got " ++ toString matrixLen

/-- The body of the `while line` loop of `parse_file` for one line:
blank lines are skipped, header lines update the header fields, data
rows whose field count matches `num_fields` extend the matrix (a
mismatch is reported and the row dropped), anything else is reported
as unexpected data. -/
def processLine (st : St) (line : String) : St :=
  if emptyLineMatches line then st
  else if headerMatches line then
    let st1 :=
      match dirFreqMatch line with
      | some g => { st with numFields := digitsToInt g.1, numFreq := digitsToInt g.2 }
      | none => st
    match freqBandMatch line with
    | some g => { st1 with freqWBand := PyVal.pystr g.1, freq0 := PyVal.pystr g.2 }
    | none => st1
  else
    match fcoeffDataMatch line with
    | some block =>
      let values := pySplitWs block
      if (values.length : Int) ≠ st.numFields then
        { st with excs := st.excs ++ [PyExc.recoverableSample
            ("Unexpected Number of fields in line: expected " ++ toString st.numFields ++
              ", got " ++ toString values.length)] }
      else { st with matrix := st.matrix ++ [values] }
    | none =>
      { st with excs := st.excs ++ [PyExc.recoverableSample
          ("Unexpected data found in line " ++ line)] }

/-- The result of one `parse_file` call: the final local state, the
six-element `parsed_data` list, and the record buffer to which the
extracted particle was appended. -/
structure Result where
  st : St
  record : List PyVal
  records : List (List PyVal)
  deriving Repr, DecidableEq

/-- The state of `parse_file` before the line loop: defaults set, file
time extracted from the file name when possible (a recoverable
exception is reported otherwise). -/
def initState (name : String) : St :=
  let st0 : St :=
    { fileTime := "0001010000", numFields := 0, numFreq := 0,
      freqWBand := PyVal.pyfloat "0.0", freq0 := PyVal.pyfloat "0.0",
      matrix := [], excs := [] }
  match fileNameMatch name with
  | some t => { st0 with fileTime := t }
  | none => { st0 with excs := st0.excs ++ [PyExc.recoverableSample
      ("Unable to extract file time from DSpec input file name: " ++ name)] }

/-- The state of `parse_file` after the `while line` loop. -/
def scanState (name : String) (lines : List String) : St :=
  lines.foldl processLine (initState name)

/-- The state after the end-of-file check: a recoverable exception is
reported when the matrix row count differs from the declared
`num_freq`. -/
def finalState (name : String) (lines : List String) : St :=
  if ((scanState name lines).matrix.length : Int) ≠ (scanState name lines).numFreq then
    { scanState name lines with excs := (scanState name lines).excs ++
        [PyExc.recoverableSample
          (mismatchMsg (scanState name lines).numFreq (scanState name lines).matrix.length)] }
  else scanState name lines

/-- `AdcptMDspecParser.parse_file`: run the line loop and the
end-of-file check, then build the six-element `parsed_data` list and
append the extracted particle to the record buffer unconditionally. -/
def parseFile (name : String) (lines : List String) : Result :=
  let st3 := finalState name lines
  let parsedData : List PyVal :=
    [PyVal.pystr st3.fileTime, PyVal.pyint st3.numFields, PyVal.pyint st3.numFreq,
      st3.freqWBand, st3.freq0, PyVal.pymatrix st3.matrix]
  { st := st3, record := parsedData, records := [parsedData] }

/-- The conversion function of a field-map entry (`str`, `int`,
`float` or `list` in the source). -/
inductive Conv where
  | toStr
  | toInt
  | toFloat
  | toList
  deriving Repr, DecidableEq

/-- `FCOEFF_DATA_MAP`: the field map of
`AdcptMDspecInstrumentDataParticle`, with source indices 0-13. -/
def FCOEFF_DATA_MAP : List (String × Nat × Conv) :=
  [("file_time", 0, Conv.toStr),
   ("num_fields", 1, Conv.toInt),
   ("num_freq", 2, Conv.toInt),
   ("freq_w_band", 3, Conv.toFloat),
   ("freq_0", 4, Conv.toFloat),
   ("frequency_band", 5, Conv.toList),
   ("bandwidth_band", 6, Conv.toList),
   ("energy_density_band", 7, Conv.toList),
   ("direction_band", 8, Conv.toList),
   ("a1_band", 9, Conv.toList),
   ("b1_band", 10, Conv.toList),
   ("a2_band", 11, Conv.toList),
   ("b2_band", 12, Conv.toList),
   ("check_factor_band", 13, Conv.toList)]

/-- `AdcptMDspecInstrumentDataParticle._build_parsed_values`: the
list comprehension `[self._encode_value(name, self.raw_data[group],
function) for name, group, function in self.instrument_particle_map]`.
`self.raw_data[group]` raises `IndexError` for an out-of-range index
before `_encode_value` runs; `_encode_value` itself (from the
data_particle module, not in the source tree) pairs the field name
with the fetched value. -/
def buildParsedValues (raw : List PyVal) (pmap : List (String × Nat × Conv)) :
    Except PyExc (List (String × PyVal)) :=
  pmap.mapM fun e =>
    match raw.get? e.2.1 with
    | none => Except.error (PyExc.indexError "list index out of range")
    | some v => Except.ok (e.1, v)

end MiDataset.Fcoeff

namespace MiDataset.Pco

/-!
## pco_a_2a_dcl.py — the pCO2 air/water DCL parser

`Pco2aDclParser.parse_chunks` matches each chunk against
`SENSOR_DATA_MATCHER`; the final captured character (`group(
lastindex)`, the `(\D)` sample-type group) selects the air or water
particle class, the parser's `particle_class` attribute is reassigned
to the matching variant, and the particle is extracted with the
reassigned class.
-/

open MiDataset

/-- `\D`. -/
def isNotDigit (c : Char) : Bool := !c.isDigit

/-- `TIMESTAMP` of pco_a_2a_dcl.py: groups 1-7 (whole, year, month,
day, hour, minute, `second.mmm`). -/
def TIMESTAMP : RE :=
  RE.grp 1 (RE.seq [RE.grp 2 (dign 4), RE.lit '/', RE.grp 3 (dign 2), RE.lit '/',
    RE.grp 4 (dign 2), RE.lit ' ', RE.grp 5 (dign 2), RE.lit ':', RE.grp 6 (dign 2),
    RE.lit ':', RE.grp 7 (RE.seq [dign 2, RE.lit '.', dign 3])])

/-- `UINT` of pco_a_2a_dcl.py: `(\d*)`. -/
def uintStarG (i : Nat) : RE := RE.grp i (RE.star (RE.cls isDigitB))

/-- `FLOAT` of pco_a_2a_dcl.py: `(\d+.\d+)` — the unescaped dot
matches any character except a newline. -/
def floatDotG (i : Nat) : RE :=
  RE.grp i (RE.seq [digits1, RE.cls isAnyNoNL, digits1])

/-- `SENSOR_DATA_PATTERN`: timestamp, `#`, sensor date/time, `, *M,`
and the nine comma-separated numeric fields, ending in the `(\D)`
sample-type group (group 20) and a line feed. -/
def SENSOR_DATA_RE : RE :=
  RE.seq [TIMESTAMP, RE.lit ' ', RE.lit '#',
    RE.grp 8 (RE.seq [
      RE.grp 9 (RE.seq [dign 4, RE.lit '/', dign 2, RE.lit '/', dign 2]), RE.lit ' ',
      RE.grp 10 (RE.seq [dign 2, RE.lit ':', dign 2, RE.lit ':', dign 2])]),
    RE.lit ',', RE.star (RE.lit ' '), RE.lit 'M', RE.lit ',',
    uintStarG 11, RE.lit ',', uintStarG 12, RE.lit ',',
    floatDotG 13, RE.lit ',', floatDotG 14, RE.lit ',',
    floatDotG 15, RE.lit ',', floatDotG 16, RE.lit ',',
    uintStarG 17, RE.lit ',', floatDotG 18, RE.lit ',', floatDotG 19, RE.lit ',',
    RE.grp 20 (RE.cls isNotDigit), RE.lit '\n']

/-- `METADATA_PATTERN`: timestamp, `[text]`, more text, line feed. -/
def METADATA_RE : RE :=
  RE.seq [TIMESTAMP, RE.lit ' ', RE.lit '[', RE.star (RE.cls isAnyNoNL), RE.lit ']',
    RE.star (RE.cls isAnyNoNL), RE.lit '\n']

/-- `SENSOR_DATA_MATCHER.match(chunk)` with its twenty `groups()`. -/
def sensorMatch (chunk : String) : Option (List String) :=
  (reMatch SENSOR_DATA_RE chunk.data).map fun m => capGroups m.2 20

/-- `sensor_match.group(sensor_match.lastindex)`: all twenty groups of
a successful sensor match participate, so `lastindex` is 20, the
`(\D)` sample-type character. -/
def lastGroup (g : List String) : String := g.getD 19 ""

/-- `METADATA_MATCHER.match(chunk) is not None`. -/
def metaMatches (chunk : String) : Bool :=
  (reMatch METADATA_RE chunk.data).isSome

/-- The four particle classes a `Pco2aDclParser` is constructed with
(one per entry-point subclass). -/
inductive PcoClass where
  | air
  | airRecovered
  | water
  | waterRecovered
  deriving Repr, DecidableEq

/-- The `if ... is ...` chain of the `'W'` branch: reassign
`self.particle_class` to the water variant of the current class. -/
def transW : PcoClass → PcoClass
  | PcoClass.air => PcoClass.water
  | PcoClass.airRecovered => PcoClass.waterRecovered
  | PcoClass.water => PcoClass.water
  | PcoClass.waterRecovered => PcoClass.waterRecovered

/-- The `if ... is ...` chain of the `'A'` branch: reassign
`self.particle_class` to the air variant of the current class. -/
def transA : PcoClass → PcoClass
  | PcoClass.air => PcoClass.air
  | PcoClass.airRecovered => PcoClass.airRecovered
  | PcoClass.water => PcoClass.air
  | PcoClass.waterRecovered => PcoClass.airRecovered

/-- The body of the `while chunk is not None` loop of
`Pco2aDclParser.parse_chunks` for one chunk.  A sensor chunk whose
sample-type character is `'W'`/`'A'` first reassigns
`self.particle_class` and then extracts the particle with the
reassigned class (`is 'W'`/`is 'A'` compare one-character interned
strings in CPython 2, hence equality); non-sensor chunks are ignored
when they are metadata and reported otherwise.  Returns the new
`particle_class`, the extracted particles (class used, raw groups)
and the reported exceptions. -/
def processChunk (cls : PcoClass) (chunk : String) :
    PcoClass × List (PcoClass × List String) × List PyExc :=
  match sensorMatch chunk with
  | some g =>
    if lastGroup g = "W" then
      let cls2 := transW cls
      (cls2, [(cls2, g)], [])
    else if lastGroup g = "A" then
      let cls2 := transA cls
      (cls2, [(cls2, g)], [])
    else (cls, [], [])
  | none =>
    if metaMatches chunk then (cls, [], [])
    else (cls, [], [PyExc.unexpectedData ("Unknown data found in chunk " ++ chunk)])

/-- `Pco2aDclParser.handle_non_data`: like the WVS version, but also
advancing the reader position by the length of the reported span.
Nothing is reported and the position untouched when no data chunk
follows the non-data (`start` is `None`, and Python 2 orders `None`
below every integer). -/
def handleNonData (nonData : Option String) (nonEnd start : Option Int) :
    List PyExc × Nat :=
  match nonData with
  | none => ([], 0)
  | some nd =>
    if Wvs.pyLeOpt nonEnd start then
      ([PyExc.unexpectedData ("Found " ++ toString nd.length ++
        " bytes of un-expected non-data " ++ nd)], nd.length)
    else ([], 0)

end MiDataset.Pco

namespace MiDataset

/-! ## Theorems settling the claims -/

/-- No branch of the PD8 chunk loop produces a particle: the particle
construction of the `IGNORE_EMPTY` branch is commented out in the
source, so `result_particles` is never extended. -/
theorem Pd8.processChunk_particles_nil (st : Pd8.Accs) (c : String) :
    (Pd8.processChunk st c).2.1 = [] := by
  unfold Pd8.processChunk
  cases h : Pd8.firstMatch c with
  | none =>
    by_cases hm : Pd8.metaMatches c <;> simp [h, hm]
  | some kg =>
    obtain ⟨k, g⟩ := kg
    cases k <;> simp [h]

/-- The particle list of a `parse_chunks` fold never grows. -/
theorem Pd8.foldl_particles_fixed (chunks : List String) :
    ∀ acc : Pd8.Accs × List Pd8.Particle × List PyExc,
      (chunks.foldl Pd8.loopStep acc).2.1 = acc.2.1 := by
  induction chunks with
  | nil => intro acc; rfl
  | cons c cs ih =>
    intro acc
    rw [List.foldl_cons, ih]
    show (Pd8.loopStep acc c).2.1 = acc.2.1
    unfold Pd8.loopStep
    rw [Pd8.processChunk_particles_nil]
    simp

/-- The complete ASCII multi-line PD8 record of the round-trip
scenario: sensor-time header, attitude line, temperature line, the
column-header line, two data rows and the empty-timestamp
terminator. -/
def c1RoundTripBlock : List String :=
  ["2013/12/01 01:04:18.269   2013/12/01  01:04:08.10       14879\n",
   "2013/12/01 01:04:18.280 Hdg:  231.2 Pitch:    0.9 Roll:   -1.5\n",
   "2013/12/01 01:04:18.290 Temp:    9.9 SoS:  1485 BIT: 00\n",
   "2013/12/01 01:04:18.300 Bin    Dir    Mag     E/W     N/S    Vert     Err   Echo1   Echo2   Echo3   Echo4\n",
   "2013/12/01 01:04:18.311    1     16.2     14.6       -4      -14       -2        4    66    82    75    71\n",
   "2013/12/01 01:04:18.321    2     17.2     13.6       -4      -13       -2        4    66    82    75    71\n",
   "2013/12/01 01:04:18.331 \n"]

/-- C1: contrary to the claim, `get_records(1)` on a stream holding
one complete multi-line PD8 record returns no record at all:
`AdcpPd8Parser.parse_chunks` never appends to `result_particles`
(the particle construction is commented out in the source), so the
record buffer stays empty for every input. -/
theorem C1_pd8_get_records_returns_nothing :
    (∀ chunks, (Pd8.parseChunks chunks).1 = []) ∧
      Pd8.getRecords 1 c1RoundTripBlock = [] := by
  constructor
  · intro chunks
    unfold Pd8.parseChunks
    rw [Pd8.foldl_particles_fixed]
  · unfold Pd8.getRecords Pd8.parseChunks
    rw [Pd8.foldl_particles_fixed]
    rfl

/-- C2: the `parsed_data` list that `parse_file` hands to the FCoeff
particle always has exactly six elements, while `FCOEFF_DATA_MAP`
lists source indices up to 13, so `_build_parsed_values` raises
`IndexError` (first at index 6, `bandwidth_band`) for every particle
the parser builds. -/
theorem C2_fcoeff_map_indexes_out_of_bounds (name : String) (lines : List String) :
    (Fcoeff.parseFile name lines).record.length = 6 ∧
      Fcoeff.buildParsedValues (Fcoeff.parseFile name lines).record Fcoeff.FCOEFF_DATA_MAP =
        Except.error (PyExc.indexError "list index out of range") := by
  exact ⟨rfl, rfl⟩

/-- C3: the binary WVS sieve returns exactly the span
`(record_start, record_start + record_size)` when the buffer holds a
complete header (sync word plus ten more bytes) at the first sync
position and at least `record_size` bytes from the sync word; it
returns no span when the declared size does not fit the buffer, and
no span when no header is found. -/
theorem C3_wvs_sieve_function_framing :
    (∀ b i, Wvs.syncIndex b = some i →
      i + Wvs.le32At b (i + 4) ≤ b.length →
      Wvs.sieveFunction b = [(i, i + Wvs.le32At b (i + 4))]) ∧
    (∀ b i, Wvs.syncIndex b = some i →
      b.length < i + Wvs.le32At b (i + 4) →
      Wvs.sieveFunction b = []) ∧
    (∀ b, Wvs.syncIndex b = none → Wvs.sieveFunction b = []) := by
  refine ⟨?_, ?_, ?_⟩
  · intro b i h hfit
    unfold Wvs.sieveFunction
    rw [h]
    simp only
    rw [if_pos (by omega)]
  · intro b i h hshort
    unfold Wvs.sieveFunction
    rw [h]
    simp only
    rw [if_neg (by omega)]
  · intro b h
    unfold Wvs.sieveFunction
    rw [h]

/-- A buffer holding one complete 20-byte record. -/
def c3BufComplete : List Nat :=
  [0x7f, 0x7a, 9, 9, 20, 0, 0, 0, 1, 2, 3, 5, 0, 0, 0, 0, 0, 0, 0, 0]

/-- The same buffer with the last byte missing: the declared size 20
does not fit. -/
def c3BufShort : List Nat :=
  [0x7f, 0x7a, 9, 9, 20, 0, 0, 0, 1, 2, 3, 5, 0, 0, 0, 0, 0, 0, 0]

/-- A buffer with no sync word. -/
def c3BufNoSync : List Nat := [1, 2, 3]

/-- Witness for C3 at concrete buffers. -/
theorem C3_witness :
    Wvs.sieveFunction c3BufComplete = [(0, 0 + Wvs.le32At c3BufComplete (0 + 4))] ∧
    Wvs.sieveFunction c3BufShort = [] ∧
    Wvs.sieveFunction c3BufNoSync = [] :=
  ⟨C3_wvs_sieve_function_framing.1 c3BufComplete 0 (by decide) (by decide),
   C3_wvs_sieve_function_framing.2.1 c3BufShort 0 (by decide) (by decide),
   C3_wvs_sieve_function_framing.2.2 c3BufNoSync (by decide)⟩

/-- C4: contrary to the claim, `check_bit` raises `ValueError` for
every hexadecimal letter ('a' and 'A' shown): `int(hex_value)` is
evaluated before the letter `elif` chain can run.  For decimal digit
characters it returns the bit at position `index` counted from the
*left* of the four-bit string, not from the right as its own
docstring states: for '1' (binary 0001) with index 0 it returns 0
although bit 0 is set, and for '8' (binary 1000) with index 0 it
returns 1 although bit 0 is clear. -/
theorem C4_check_bit_raises_and_reverses :
    Pd8.checkBit "a" 0 =
      Except.error (PyExc.valueError "invalid literal for int() with base 10: a") ∧
    Pd8.checkBit "A" 3 =
      Except.error (PyExc.valueError "invalid literal for int() with base 10: A") ∧
    Pd8.checkBit "1" 0 = Except.ok (0, []) ∧
    Pd8.checkBit "8" 0 = Except.ok (1, []) ∧
    Pd8.checkBit "4" 1 = Except.ok (1, []) := by
  refine ⟨rfl, rfl, ?_, ?_, ?_⟩ <;> rfl

/-- C5 (counterexample): with the stream exhausted and no data chunk
following the non-data span, `start` is `None`; both `handle_non_data`
implementations then report nothing (Python 2 orders `None` below
every integer, so `non_end <= start` is false), contradicting the
claim that the span is reported exactly once. -/
theorem C5_counterexample :
    Pco.handleNonData (some "noise") (some 5) none = ([], 0) ∧
    Wvs.handleNonData (some [1, 2, 3]) (some 5) none = [] := by
  exact ⟨rfl, rfl⟩

/-- C5 (amended): a non-data span is reported, exactly once and as an
`UnexpectedDataException`, only when a data chunk follows it in the
buffer and `non_end <= start`; when no data chunk follows (`start`
is `None`, e.g. a partial frame at stream exhaustion) nothing is
reported. -/
theorem C5_non_data_report_guard :
    (∀ (nd : String) (ne s : Int), ne ≤ s →
      Pco.handleNonData (some nd) (some ne) (some s) =
        ([PyExc.unexpectedData ("Found " ++ toString nd.length ++
          " bytes of un-expected non-data " ++ nd)], nd.length)) ∧
    (∀ (nd : String) (ne : Int), Pco.handleNonData (some nd) (some ne) none = ([], 0)) ∧
    (∀ (nd : List Nat) (ne s : Int), ne ≤ s →
      Wvs.handleNonData (some nd) (some ne) (some s) =
        [PyExc.unexpectedData ("Found " ++ toString nd.length ++
          " bytes of un-expected non-data")]) ∧
    (∀ (nd : List Nat) (ne : Int), Wvs.handleNonData (some nd) (some ne) none = []) := by
  refine ⟨?_, ?_, ?_, ?_⟩
  · intro nd ne s h
    simp [Pco.handleNonData, Wvs.pyLeOpt, h]
  · intro nd ne; rfl
  · intro nd ne s h
    simp [Wvs.handleNonData, Wvs.pyLeOpt, h]
  · intro nd ne; rfl

/-- Witness for C5 at concrete spans. -/
theorem C5_witness :
    Pco.handleNonData (some "xy") (some 2) (some 7) =
      ([PyExc.unexpectedData ("Found " ++ toString "xy".length ++
        " bytes of un-expected non-data " ++ "xy")], "xy".length) ∧
    Wvs.handleNonData (some [9]) (some 1) (some 1) =
      [PyExc.unexpectedData ("Found " ++ toString [9].length ++
        " bytes of un-expected non-data")] :=
  ⟨C5_non_data_report_guard.1 "xy" 2 7 (by decide),
   C5_non_data_report_guard.2.2.1 [9] 1 1 (by decide)⟩

/-- A PD8 accumulator state mid-assembly: the sensor-time header of
the record in progress has been seen. -/
def c6MidRecordState : Pd8.Accs :=
  { sensorDataList := [], sensorTempList := [], sensorHeadList := [],
    sensorTimeList := [["2013/12/01 01:04:18.269", "2013", "12", "01", "01", "04",
      "18", "269", "2013/12/01  01:04:08.10", "2013/12/01", "01:04:08.10", "14879"]],
    endTimeList := [] }

/-- C6 (counterexample): an unknown, non-metadata chunk arriving
mid-assembly is reported via the exception callback, but the
in-progress accumulator lists are *not* discarded: the state after
the chunk equals the state before it and is not the empty initial
state, contradicting the claim that assembly resumes from the
awaiting-header state. -/
theorem C6_counterexample :
    Pd8.processChunk c6MidRecordState "garbage\n" =
      (c6MidRecordState, [],
        [PyExc.unexpectedData "Unknown data found in chunk [not meta] garbage\n"]) ∧
    c6MidRecordState ≠ Pd8.Accs.empty := by
  exact ⟨by decide, by decide⟩

/-- C6 (amended): when a chunk matches none of the matchers of
`MATCHER_LIST` and is not a metadata record, the anomaly is reported
through the exception callback as an `UnexpectedDataException`, and
the five accumulator lists are left exactly as they were — the
in-progress record is retained, not discarded. -/
theorem C6_unknown_chunk_reported_accumulators_kept
    (st : Pd8.Accs) (chunk : String)
    (h1 : Pd8.firstMatch chunk = none) (h2 : Pd8.metaMatches chunk = false) :
    Pd8.processChunk st chunk =
      (st, [], [PyExc.unexpectedData ("Unknown data found in chunk [not meta] " ++ chunk)]) := by
  unfold Pd8.processChunk
  simp [h1, h2]

/-- Witness for C6 at a concrete unknown chunk. -/
theorem C6_witness :
    Pd8.processChunk c6MidRecordState "garbage\n" =
      (c6MidRecordState, [],
        [PyExc.unexpectedData ("Unknown data found in chunk [not meta] " ++ "garbage\n")]) :=
  C6_unknown_chunk_reported_accumulators_kept c6MidRecordState "garbage\n"
    (by decide) (by decide)

/-- C7: whatever the accumulator state, processing a chunk that the
matcher dispatch classifies as a terminator (`IGNORE_EMPTY_MATCHER`,
the first matcher of `MATCHER_LIST` to match) leaves all five
accumulator lists empty — they are `del`-cleared unconditionally,
whether or not a valid record was produced. -/
theorem C7_terminator_clears_accumulators
    (st : Pd8.Accs) (chunk : String) (g : List String)
    (h : Pd8.firstMatch chunk = some (Pd8.Kind.ignoreEmpty, g)) :
    (Pd8.processChunk st chunk).1.sensorDataList = [] ∧
    (Pd8.processChunk st chunk).1.sensorTempList = [] ∧
    (Pd8.processChunk st chunk).1.sensorHeadList = [] ∧
    (Pd8.processChunk st chunk).1.sensorTimeList = [] ∧
    (Pd8.processChunk st chunk).1.endTimeList = [] := by
  unfold Pd8.processChunk
  simp [h, Pd8.Accs.empty]

/-- A PD8 accumulator state with every list non-empty. -/
def c7FullState : Pd8.Accs :=
  { sensorDataList := [["d"]], sensorTempList := [["t"]], sensorHeadList := [["h"]],
    sensorTimeList := [["s"]], endTimeList := [["e"]] }

/-- The empty-timestamp terminator line. -/
def c7TermLine : String := "2013/12/01 01:04:18.331 \n"

/-- Witness for C7 at a concrete terminator line and a full
accumulator state. -/
theorem C7_witness :
    (Pd8.processChunk c7FullState c7TermLine).1.sensorDataList = [] ∧
    (Pd8.processChunk c7FullState c7TermLine).1.sensorTempList = [] ∧
    (Pd8.processChunk c7FullState c7TermLine).1.sensorHeadList = [] ∧
    (Pd8.processChunk c7FullState c7TermLine).1.sensorTimeList = [] ∧
    (Pd8.processChunk c7FullState c7TermLine).1.endTimeList = [] :=
  C7_terminator_clears_accumulators c7FullState c7TermLine
    ((Pd8.firstMatch c7TermLine).getD (Pd8.Kind.ignoreEmpty, [])).2 (by decide)

/-- The matrix and declared frequency count of the end-of-file check
are not changed by the check itself. -/
theorem Fcoeff.finalState_fields (name : String) (lines : List String) :
    (Fcoeff.finalState name lines).matrix = (Fcoeff.scanState name lines).matrix ∧
    (Fcoeff.finalState name lines).numFreq = (Fcoeff.scanState name lines).numFreq := by
  unfold Fcoeff.finalState
  split <;> exact ⟨rfl, rfl⟩

/-- C8: when the number of accumulated FCoeff rows differs from the
declared `num_freq` at end of file, a `RecoverableSampleException`
carrying the mismatch message is passed to the exception callback,
and one particle is still appended to the record buffer, its
`parsed_data` containing the partial matrix at index 5. -/
theorem C8_fcoeff_mismatch_reported_record_emitted (name : String) (lines : List String)
    (h : ((Fcoeff.parseFile name lines).st.matrix.length : Int) ≠
      (Fcoeff.parseFile name lines).st.numFreq) :
    PyExc.recoverableSample
        (Fcoeff.mismatchMsg (Fcoeff.parseFile name lines).st.numFreq
          (Fcoeff.parseFile name lines).st.matrix.length) ∈
      (Fcoeff.parseFile name lines).st.excs ∧
    (Fcoeff.parseFile name lines).records.length = 1 ∧
    (Fcoeff.parseFile name lines).record.get? 5 =
      some (Fcoeff.PyVal.pymatrix (Fcoeff.parseFile name lines).st.matrix) := by
  refine ⟨?_, rfl, rfl⟩
  have hfields := Fcoeff.finalState_fields name lines
  have hst : (Fcoeff.parseFile name lines).st = Fcoeff.finalState name lines := rfl
  rw [hst] at h ⊢
  have hm : ((Fcoeff.scanState name lines).matrix.length : Int) ≠
      (Fcoeff.scanState name lines).numFreq := by
    rw [hfields.1, hfields.2] at h
    exact h
  unfold Fcoeff.finalState at *
  rw [if_pos hm] at *
  simp

/-- The file name and lines of the C8 witness run: two fields per row
declared, three frequencies declared, a single data row supplied. -/
def c8Name : String := "dir/FCoeff1404180021.txt"

/-- Lines of the C8 witness run. -/
def c8Lines : List String := ["% 2 Fields and 3 Frequencies\n", " 1.0 2.0\n"]

/-- Witness for C8 at a concrete mismatching file. -/
theorem C8_witness :
    PyExc.recoverableSample
        (Fcoeff.mismatchMsg (Fcoeff.parseFile c8Name c8Lines).st.numFreq
          (Fcoeff.parseFile c8Name c8Lines).st.matrix.length) ∈
      (Fcoeff.parseFile c8Name c8Lines).st.excs ∧
    (Fcoeff.parseFile c8Name c8Lines).records.length = 1 ∧
    (Fcoeff.parseFile c8Name c8Lines).record.get? 5 =
      some (Fcoeff.PyVal.pymatrix (Fcoeff.parseFile c8Name c8Lines).st.matrix) :=
  C8_fcoeff_mismatch_reported_record_emitted c8Name c8Lines (by decide)

/-- The particle list of the WVS chunk loop depends on the shared
class-attribute state only through `_file_time` and
`_sequence_number`. -/
theorem Wvs.foldl_particles_congr {P : Type}
    (build : Option String → Option String → List Nat → P)
    (chunks : List (List Nat)) :
    ∀ a b : List P × Wvs.Shared, a.1 = b.1 →
      a.2.fileTime = b.2.fileTime → a.2.seqNum = b.2.seqNum →
      (chunks.foldl (Wvs.loopStep build) a).1 = (chunks.foldl (Wvs.loopStep build) b).1 := by
  induction chunks with
  | nil => intro a b h1 _ _; exact h1
  | cons c cs ih =>
    intro a b h1 h2 h3
    rw [List.foldl_cons, List.foldl_cons]
    apply ih
    · unfold Wvs.loopStep
      simp [h1, h2, h3]
    · unfold Wvs.loopStep
      simpa using h2
    · unfold Wvs.loopStep
      simpa using h3

/-- C9: parsing the same well-formed input (a file whose name matches
`FILE_NAME_MATCHER`, so the shared class attributes are overwritten
before any particle is built) with two fresh parser instances yields
identical particle sequences regardless of the shared class-level
state left behind by earlier runs. -/
theorem C9_wvs_reparse_deterministic {P : Type}
    (build : Option String → Option String → List Nat → P)
    (name : String) (chunks : List (List Nat)) (s1 s2 : Wvs.Shared)
    (h : (Wvs.fileNameMatch name).isSome = true) :
    (Wvs.parseChunks build name chunks s1).1 = (Wvs.parseChunks build name chunks s2).1 := by
  obtain ⟨sf, hsf⟩ := Option.isSome_iff_exists.mp h
  unfold Wvs.parseChunks
  rw [hsf]
  exact Wvs.foldl_particles_congr build chunks _ _ rfl rfl rfl

/-- A particle builder exposing exactly the shared state a particle
reads. -/
def c9Build : Option String → Option String → List Nat → Option String × Option String :=
  fun ft sq _ => (ft, sq)

/-- The well-formed WVS file name of the C9 witness run. -/
def c9Name : String := "E/CE01ISSM-ADCPT_20140418_000_TS1404180021.WVS"

/-- Witness for C9: a fresh shared state and a stale one left by a
previous run produce the same particles. -/
theorem C9_witness :
    (Wvs.parseChunks c9Build c9Name [[1, 2]] ⟨none, none, 0⟩).1 =
    (Wvs.parseChunks c9Build c9Name [[1, 2]] ⟨some "stale", some "stale", 7⟩).1 :=
  C9_wvs_reparse_deterministic c9Build c9Name [[1, 2]]
    ⟨none, none, 0⟩ ⟨some "stale", some "stale", 7⟩ (by decide)

/-- C10: for a chunk matching the sensor-data pattern, the sample-type
character (the last captured group) alone selects the emitted
variant: `'W'` reassigns `particle_class` to the water variant of
the current class and extracts the particle with the reassigned
class; `'A'` does the same with the air variant.  The
telemetered/recovered flavor of the configured class is preserved. -/
theorem C10_pco_sample_type_selects_variant
    (cls : Pco.PcoClass) (chunk : String) (g : List String)
    (h : Pco.sensorMatch chunk = some g) :
    (Pco.lastGroup g = "W" →
      Pco.processChunk cls chunk = (Pco.transW cls, [(Pco.transW cls, g)], []) ∧
      (Pco.transW cls = Pco.PcoClass.water ∨ Pco.transW cls = Pco.PcoClass.waterRecovered)) ∧
    (Pco.lastGroup g = "A" →
      Pco.processChunk cls chunk = (Pco.transA cls, [(Pco.transA cls, g)], []) ∧
      (Pco.transA cls = Pco.PcoClass.air ∨ Pco.transA cls = Pco.PcoClass.airRecovered)) := by
  constructor
  · intro hw
    refine ⟨?_, ?_⟩
    · unfold Pco.processChunk
      simp [h, hw]
    · cases cls <;> simp [Pco.transW]
  · intro ha
    refine ⟨?_, ?_⟩
    · have hne : ¬ Pco.lastGroup g = "W" := by
        rw [ha]; decide
      unfold Pco.processChunk
      simp [h, ha, hne]
    · cases cls <;> simp [Pco.transA]

/-- A water sensor record (final sample-type character `'W'`). -/
def c10WChunk : String :=
  "2014/08/10 00:20:24.274 #3765/07/27 01:00:11, M,43032,40423,397.04,40.1,21.221,28.480,1026,39.9,40.4,W\n"

/-- An air sensor record (final sample-type character `'A'`). -/
def c10AChunk : String :=
  "2014/08/10 00:20:24.274 #3765/07/27 01:00:11, M,43032,40423,397.04,40.1,21.221,28.480,1026,39.9,40.4,A\n"

/-- Witness for C10: a parser configured for air particles emits the
water variant on a `'W'` record, and one configured for recovered
water particles emits the recovered-air variant on an `'A'`
record. -/
theorem C10_witness :
    (Pco.processChunk Pco.PcoClass.air c10WChunk =
      (Pco.transW Pco.PcoClass.air,
        [(Pco.transW Pco.PcoClass.air, (Pco.sensorMatch c10WChunk).getD [])], []) ∧
      (Pco.transW Pco.PcoClass.air = Pco.PcoClass.water ∨
        Pco.transW Pco.PcoClass.air = Pco.PcoClass.waterRecovered)) ∧
    (Pco.processChunk Pco.PcoClass.waterRecovered c10AChunk =
      (Pco.transA Pco.PcoClass.waterRecovered,
        [(Pco.transA Pco.PcoClass.waterRecovered, (Pco.sensorMatch c10AChunk).getD [])], []) ∧
      (Pco.transA Pco.PcoClass.waterRecovered = Pco.PcoClass.air ∨
        Pco.transA Pco.PcoClass.waterRecovered = Pco.PcoClass.airRecovered)) :=
  ⟨(C10_pco_sample_type_selects_variant Pco.PcoClass.air c10WChunk
      ((Pco.sensorMatch c10WChunk).getD []) (by decide)).1 (by decide),
   (C10_pco_sample_type_selects_variant Pco.PcoClass.waterRecovered c10AChunk
      ((Pco.sensorMatch c10AChunk).getD []) (by decide)).2 (by decide)⟩

end MiDataset
